import Mathlib

/-!
Verification development for the FeedsBar orbs recompute pipeline
(feeds-worker, `orbsRecompute.ts`).

The TypeScript source is shallowly embedded here:
* JavaScript numbers that can be non-finite are modelled by `JSNum`
  (a rational plus NaN / +Infinity / -Infinity); all arithmetic that the
  program performs on finite values is carried out on `ℚ`.
* Wall-clock instants (`Date.getTime()` milliseconds) are modelled as `ℤ`.
* Strings that undergo character-level processing are modelled as `List Char`
  (`Str`); opaque identifiers (topic ids, hashes produced by collaborators,
  colors) remain `String`.
* The sha256 content hash of a word triple is modelled by the normalized
  pre-image itself (trimmed, uppercased, joined by a separator); the
  program only ever compares these hashes for equality, and sha256 is
  injective for the purposes of the specification (collision-free
  abstraction).
* The persistent store (supabase tables `orb_state`, `orb_labels`,
  `orb_snapshots`, `orb_runs`) is a pure `Store` structure; reads are pure
  queries and writes are pure updates, so store reads/writes cannot fail in
  the model.  Failure modes of the external collaborators (`fn_orb_state_calc`,
  `fn_orb_label_candidates`, the OpenAI chat call, the category backfill and
  the topics listing) are carried by an `Env` of `Except`-valued oracles,
  mirroring the places where the program checks an `error` field and throws.
-/

namespace Orbs

/-- Strings that undergo character-level processing. -/
abbrev Str := List Char

/-! ### JavaScript numbers -/

/-- A JavaScript number as far as the pipeline observes it: a finite rational
or one of the non-finite values. -/
inductive JSNum where
  | nan : JSNum
  | inf : JSNum
  | ninf : JSNum
  | num : ℚ → JSNum
deriving DecidableEq

/-- `Number.isFinite`. -/
def JSNum.isFinite : JSNum → Bool
  | .num _ => true
  | _ => false

/-- `Math.round` for finite JavaScript numbers: round half toward positive
infinity. -/
def jsRound (q : ℚ) : ℚ := (⌊q + 1/2⌋ : ℤ)

/-- `clampWindowMinutes` (orbsRecompute.ts lines 94-99):
`if (!Number.isFinite(n) || n <= 0) return 60; if (n < 5) return 5;
if (n > 24*60) return 24*60; return Math.round(n);` -/
def clampWindowMinutes (n : JSNum) : ℚ :=
  match n with
  | .num q =>
    if q ≤ 0 then 60
    else if q < 5 then 5
    else if q > 1440 then 1440   -- 24 * 60
    else jsRound q
  | _ => 60

/-- The window-minutes value used by `recomputeOrbs` (line 264):
`clampWindowMinutes(Number(req.body?.window_minutes ?? 60))`.  The request
override is an `Option JSNum`: `none` when the body omits `window_minutes`,
otherwise the result of JavaScript `Number` coercion of the supplied value. -/
def requestWindowMinutes (override : Option JSNum) : ℚ :=
  clampWindowMinutes (override.getD (.num 60))

/-! ### Window alignment -/

/-- Milliseconds in the 5-minute alignment step (`5 * 60 * 1000`). -/
def alignStepMs : ℤ := 5 * 60 * 1000

/-- `alignedWindowEndUtc` (lines 86-92), on the millisecond timestamp:
`new Date(Math.floor(ms / step) * step)`. -/
def alignedWindowEndMs (ms : ℤ) : ℤ :=
  ⌊(ms : ℚ) / (alignStepMs : ℚ)⌋ * alignStepMs

/-! ### Velocity calculator (lines 355-366) -/

/-- `const velocity_raw = prevVol > 0 ? (volume - prevVol) / prevVol : 0;` -/
def velocityRaw (volume prevVol : ℚ) : ℚ :=
  if prevVol > 0 then (volume - prevVol) / prevVol else 0

/-- `const velocity_per_hour = denom > 0 ? velocity_raw * (60 / denom) : 0;`
where `denom = elapsed_minutes > 0 ? elapsed_minutes : 0`. -/
def velocityPerHour (raw elapsedMinutes : ℚ) : ℚ :=
  if elapsedMinutes > 0 then raw * (60 / elapsedMinutes) else 0

/-- `clamp` (lines 140-142): `Math.max(min, Math.min(max, n))`. -/
def clampQ (n lo hi : ℚ) : ℚ := max lo (min hi n)

/-- UI safety cap for orb motion (`VELOCITY_UI_CAP`, line 21). -/
def VELOCITY_UI_CAP : ℚ := 5

/-! ### Gate evaluator (lines 412-449) -/

/-- `timeGateOk = !lastAttemptMs || Date.now() - lastAttemptMs >= cadenceMin * 60 * 1000`
(line 421); `lastAttemptMs` is `0` when the topic has no label yet. -/
def timeGate (nowMs lastAttemptMs : ℤ) (cadenceMin : ℚ) : Bool :=
  decide (lastAttemptMs = 0) ||
    decide (((nowMs - lastAttemptMs : ℤ) : ℚ) ≥ cadenceMin * 60 * 1000)

/-- `changeGateOk` (lines 426-428):
`absVel >= 0.35 || (volume >= 30 && prevVol > 0 && Math.abs(volume - prevVol) / prevVol >= 0.25)`. -/
def changeGate (velocityRawV volume prevVol : ℚ) : Bool :=
  decide (|velocityRawV| ≥ 35/100) ||
    (decide (volume ≥ 30) && decide (prevVol > 0) &&
      decide (|volume - prevVol| / prevVol ≥ 25/100))

/-- `minVolOk = volume >= 12` (line 430). -/
def minVolGate (volume : ℚ) : Bool := decide (volume ≥ 12)

/-- `firstLabelOk = !hasPromoted && timeGateOk && volume >= 10` (line 448). -/
def firstLabelGate (hasPromoted timeGateOk : Bool) (volume : ℚ) : Bool :=
  !hasPromoted && timeGateOk && decide (volume ≥ 10)

/-- `regenOk = hasPromoted && timeGateOk && changeGateOk && minVolOk` (line 449). -/
def regenGate (hasPromoted timeGateOk changeGateOk minVolOk : Bool) : Bool :=
  hasPromoted && timeGateOk && changeGateOk && minVolOk

/-! ### Character and string helpers -/

/-- The whitespace characters matched by the JavaScript `\s` class, restricted
to the code points the pipeline can encounter (ASCII whitespace). -/
def isJsSpace (c : Char) : Bool :=
  c = ' ' || c = '\t' || c = '\n' || c = '\r' ||
    c = Char.ofNat 11 || c = Char.ofNat 12

/-- `replace(/\s+/g, " ")`: collapse every maximal whitespace run to a single
space. -/
def collapseWs : Str → Str
  | [] => []
  | c :: rest =>
    if isJsSpace c then
      match rest with
      | c2 :: _ => if isJsSpace c2 then collapseWs rest else ' ' :: collapseWs rest
      | [] => ' ' :: collapseWs rest
    else c :: collapseWs rest

/-- `String.prototype.trim`. -/
def trimChars (s : Str) : Str :=
  ((s.dropWhile isJsSpace).reverse.dropWhile isJsSpace).reverse

/-- `split` on a single delimiter character, keeping empty segments, as the
JavaScript `split` does. -/
def splitOnChar (d : Char) (s : Str) : List Str :=
  s.foldr
    (fun c acc =>
      if c = d then [] :: acc
      else
        match acc with
        | h :: t => (c :: h) :: t
        | [] => [[c]])
    [[]]

/-- The delimiters of `split(/[,|/]/g)` (line 108). -/
def isLabelDelim (c : Char) : Bool := c = ',' || c = '|' || c = '/'

/-- `split(/[,|/]/g)`, keeping empty segments. -/
def splitLabelDelims (s : Str) : List Str :=
  s.foldr
    (fun c acc =>
      if isLabelDelim c then [] :: acc
      else
        match acc with
        | h :: t => (c :: h) :: t
        | [] => [[c]])
    [[]]

/-- The character class kept by `replace(/[^a-zA-Z0-9\- ]/g, "")` (line 113). -/
def isWordChar (c : Char) : Bool :=
  (decide ('a' ≤ c) && decide (c ≤ 'z')) ||
    (decide ('A' ≤ c) && decide (c ≤ 'Z')) ||
    (decide ('0' ≤ c) && decide (c ≤ '9')) ||
    c = '-' || c = ' '

/-- The placeholder token pushed when fewer than three words are recoverable
(line 117). -/
def placeholderWord : Str := ['…']

/-- `safeThreeWords` (lines 105-119). -/
def safeThreeWords (raw : Str) : List Str :=
  let cleaned := trimChars (collapseWs raw)
  let parts := ((splitLabelDelims cleaned).map trimChars).filter (fun s => !s.isEmpty)
  let words :=
    (((if parts.length ≥ 3 then parts.take 3 else parts).map
        (fun w => trimChars (w.filter isWordChar))).filter
      (fun w => !w.isEmpty)).take 3
  let padded := words ++ List.replicate (3 - words.length) placeholderWord
  padded.map (fun w => w.map Char.toUpper)

/-- `hashWords` (lines 121-124), with sha256 modelled by the normalized
pre-image: `words.map(w => w.trim().toUpperCase()).join("|")`. -/
def hashWords (words : List Str) : Str :=
  match words.map (fun w => (trimChars w).map Char.toUpper) with
  | [] => []
  | w :: ws => ws.foldl (fun acc x => acc ++ '|' :: x) w

/-! ### Labels and the promotion state machine (lines 432-610) -/

/-- Label lifecycle status (`orb_labels.status`). -/
inductive LabelStatus where
  | candidate : LabelStatus
  | promoted : LabelStatus
  | stale : LabelStatus
  | rejected : LabelStatus
deriving DecidableEq

/-- A row of `orb_labels`.  `generatedAt` is the `generated_at` timestamp in
milliseconds; `lid` is the primary key, assigned in insertion order, and is
used to break `generated_at` ties the way the sequentially-inserting store
does. -/
structure Label where
  lid : Nat
  topic_id : String
  window_end : ℤ
  window_minutes : ℚ
  words : Option (List Str)
  sentiment_label : Option Str
  input_hash : Option String
  output_hash : Option Str
  status : LabelStatus
  generatedAt : ℤ
  run_id : Nat
deriving DecidableEq

/-- Newest-first ordering used by the `order by generated_at desc` queries,
with ties broken toward the later insert. -/
def newerLabel (a b : Label) : Bool :=
  decide (b.generatedAt < a.generatedAt) ||
    (decide (b.generatedAt = a.generatedAt) && decide (b.lid < a.lid))

/-- Insert into a newest-first sorted list. -/
def insDesc (l : Label) : List Label → List Label
  | [] => [l]
  | x :: xs => if newerLabel l x then l :: x :: xs else x :: insDesc l xs

/-- Sort newest-first. -/
def sortNewestFirst (ls : List Label) : List Label := ls.foldr insDesc []

/-- `from("orb_labels") ... eq("topic_id", t) ... order("generated_at", desc)`. -/
def labelsDescFor (ls : List Label) (tid : String) : List Label :=
  sortNewestFirst (ls.filter (fun l => decide (l.topic_id = tid)))

/-- `... eq("status", "promoted").order("generated_at", desc).limit(1)`
(lines 433-440): the latest promoted label of the topic. -/
def queryLatestPromoted (ls : List Label) (tid : String) : Option Label :=
  (sortNewestFirst (ls.filter
    (fun l => decide (l.topic_id = tid ∧ l.status = .promoted)))).head?

/-- `update({ status }).eq("id", lid)`. -/
def setStatus (ls : List Label) (lid : Nat) (s : LabelStatus) : List Label :=
  ls.map (fun l => if l.lid = lid then { l with status := s } else l)

/-- Bootstrap promotion (lines 546-566): look up the newest label of the topic
and set it to `promoted`. -/
def bootstrapPromotionStep (ls : List Label) (tid : String) : List Label :=
  match (labelsDescFor ls tid).head? with
  | some n => setStatus ls n.lid .promoted
  | none => ls

/-- The two-row stability check (lines 574-587): fetch the two most recent
labels of the topic; if there are two and their output hashes are non-null and
equal, answer the pair (id to promote, id to mark stale). -/
def steadyDecision (ls : List Label) (tid : String) : Option (Nat × Nat) :=
  match (labelsDescFor ls tid).take 2 with
  | [a, b] =>
    match a.output_hash, b.output_hash with
    | some h0, some h1 => if h0 = h1 then some (a.lid, b.lid) else none
    | _, _ => none
  | _ => none

/-- Steady-state promotion (lines 574-609): promote the newer of the two most
recent labels and mark the older stale when their hashes agree; otherwise
leave the store untouched. -/
def steadyPromotionStep (ls : List Label) (tid : String) : List Label :=
  match steadyDecision ls tid with
  | some (p, s) => setStatus (setStatus ls p .promoted) s .stale
  | none => ls

/-- One bootstrap operation of the promotion state machine: insert the fresh
candidate row, then promote the newest label of its topic. -/
def bootstrapLabelOp (ls : List Label) (l : Label) : List Label :=
  bootstrapPromotionStep (ls ++ [l]) l.topic_id

/-- One steady-state operation of the promotion state machine: insert the
fresh candidate row, then run the two-row stability check. -/
def steadyLabelOp (ls : List Label) (l : Label) : List Label :=
  steadyPromotionStep (ls ++ [l]) l.topic_id

/-- Number of labels of the topic currently holding status `promoted`. -/
def promotedCount (ls : List Label) (tid : String) : Nat :=
  (ls.filter (fun l => decide (l.topic_id = tid ∧ l.status = .promoted))).length

/-! ### Remaining persisted records -/

/-- An enabled row of `topics` (lines 29-37, 279-283). -/
structure Topic where
  id : String
  name : Str
  slug : String
  orb_color : Option String
  cadence_minutes : Option ℚ
  is_enabled : Bool
  uses_sentiment_color : Option Bool
deriving DecidableEq

/-- A row of `orb_state` (upserted at lines 368-389). -/
structure OrbState where
  topic_id : String
  window_end : ℤ
  window_minutes : ℚ
  volume : ℚ
  velocity : ℚ
  velocity_per_hour : ℚ
  diversity : ℚ
  top_sources : List String
  top_items : List String
  input_hash : String
  computed_at : ℤ
  run_id : Nat
deriving DecidableEq

/-- The `orb_snapshots` row for a topic (upserted at lines 632-663); the key
`topic_id` is the association key of `Store.snapshots`. -/
structure Snapshot where
  keywords : Option (List Str)
  sentiment_label : Option Str
  sentiment_score : Option ℚ
  summary : Option Str
  output_hash : Option Str
  updated_at : ℤ
  window_end : ℤ
  window_minutes : ℚ
  volume : ℚ
  velocity : ℚ
  diversity : ℚ
  top_sources : List String
  top_items : List String
  state_hash : String
  resting_color : String
  display_color : String
  label_status : LabelStatus
deriving DecidableEq

/-- `orb_runs.status`. -/
inductive RunStatus where
  | started : RunStatus
  | ok : RunStatus
  | error : RunStatus
deriving DecidableEq

/-- A row of `orb_runs` (insert at lines 299-311, updates at 665-678 and
721-728). -/
structure Run where
  rid : Nat
  topic_id : String
  status : RunStatus
  window_end : ℤ
  window_minutes : ℚ
  output_hash : Option Str
  token_estimate : Option Nat
  error_message : Option String
deriving DecidableEq

/-- The persistent store: the four mutable tables plus the id counters the
database assigns on insert. -/
structure Store where
  labels : List Label
  snapshots : List (String × Snapshot)
  orbStates : List OrbState
  runs : List Run
  nextLabelId : Nat
  nextRunId : Nat
deriving DecidableEq

/-- A store with no rows. -/
def emptyStore : Store := ⟨[], [], [], [], 0, 0⟩

/-- Point lookup of a topic's snapshot (lines 391-399). -/
def lookupSnapshot (sns : List (String × Snapshot)) (tid : String) : Option Snapshot :=
  (sns.find? (fun p => decide (p.1 = tid))).map (fun p => p.2)

/-- Conflict-key upsert of a snapshot on `topic_id`. -/
def upsertSnapshot (sns : List (String × Snapshot)) (tid : String) (row : Snapshot) :
    List (String × Snapshot) :=
  if sns.any (fun p => decide (p.1 = tid)) then
    sns.map (fun p => if p.1 = tid then (tid, row) else p)
  else sns ++ [(tid, row)]

/-- Conflict-key upsert of an `orb_state` row on
`topic_id,window_end,window_minutes` (line 385). -/
def upsertOrbState (rows : List OrbState) (row : OrbState) : List OrbState :=
  if rows.any (fun r => decide (r.topic_id = row.topic_id ∧
      r.window_end = row.window_end ∧ r.window_minutes = row.window_minutes)) then
    rows.map (fun r =>
      if r.topic_id = row.topic_id ∧ r.window_end = row.window_end ∧
          r.window_minutes = row.window_minutes then row else r)
  else rows ++ [row]

/-- The previous-window lookup (lines 339-347): most recent `orb_state` row of
the topic with the same window length and a strictly earlier window end. -/
def queryPrevOrbState (rows : List OrbState) (tid : String) (wm : ℚ) (we : ℤ) :
    Option OrbState :=
  (rows.filter (fun r => decide (r.topic_id = tid ∧ r.window_minutes = wm ∧
      r.window_end < we))).foldl
    (fun best r =>
      match best with
      | none => some r
      | some b => if b.window_end < r.window_end then some r else some b)
    none

/-- Insert the `started` run row (lines 299-311). -/
def insertRun (st : Store) (tid : String) (we : ℤ) (wm : ℚ) : Store :=
  { st with
    runs := st.runs ++
      [{ rid := st.nextRunId, topic_id := tid, status := .started,
         window_end := we, window_minutes := wm, output_hash := none,
         token_estimate := none, error_message := none }]
    nextRunId := st.nextRunId + 1 }

/-- Close the run as `ok` (lines 665-678). -/
def finishRunOk (runs : List Run) (rid : Nat) (oh : Option Str)
    (tok : Option Nat) : List Run :=
  runs.map (fun r =>
    if r.rid = rid then
      { r with status := .ok, output_hash := oh, token_estimate := tok }
    else r)

/-- Close the run as `error` with the message (lines 721-728). -/
def closeRunError (st : Store) (rid : Nat) (msg : String) : Store :=
  { st with
    runs := st.runs.map (fun r =>
      if r.rid = rid then { r with status := .error, error_message := some msg }
      else r) }

/-! ### External collaborators -/

/-- The row shape returned by `fn_orb_state_calc` (lines 39-45). -/
structure StateCalcRow where
  volume : ℚ
  diversity : ℚ
  top_sources : List String
  top_items : List String
  input_hash : String
deriving DecidableEq

/-- A label candidate item (lines 47-52). -/
structure CandItem where
  id : String
  title : Str
  feed_id : Option String
  published_at : String
deriving DecidableEq

/-- The row shape returned by `fn_orb_label_candidates` (lines 54-57). -/
structure CandRow where
  items : List CandItem
  label_input_hash : String
deriving DecidableEq

/-- The environment of external collaborators and the wall clock.  `ai tid k`
is the outcome of the `k`-th OpenAI attempt for the topic in this invocation
(`k = 0` first try, `k = 1` the single retry); on success it yields the
trimmed-to-be message content and the usage token count. -/
structure Env where
  nowMs : ℤ
  backfill : Except String Unit
  topicsLoad : Except String (List Topic)
  stateCalc : String → Except String (List StateCalcRow)
  candidates : String → Except String (List CandRow)
  ai : String → Nat → Except String (Str × Option Nat)

/-! ### Label generation (lines 148-215, 467-615) -/

/-- The parsed result of one successful OpenAI call. -/
structure AiResult where
  words : List Str
  sentiment_label : Option Str
  token_estimate : Option Nat
deriving DecidableEq

/-- The response parsing of `callOpenAIThreeWords` (lines 190-215): split the
content into trimmed non-empty lines, sanitize line one into three words, and
optionally read a `SENTIMENT: red|amber|green` line. -/
def parseAiResponse (wantsSentiment : Bool) (text : Str) (tok : Option Nat) :
    AiResult :=
  let lines := ((splitOnChar '\n' text).map trimChars).filter (fun l => !l.isEmpty)
  let wordsLine := lines.headD []
  let words := safeThreeWords wordsLine
  let sentiment :=
    if wantsSentiment then
      match lines.find? (fun l => (l.map Char.toLower).take 10 = "sentiment:".toList) with
      | some sl =>
        match (splitOnChar ':' sl).get? 1 with
        | some v =>
          let val := (trimChars v).map Char.toLower
          if val = "red".toList ∨ val = "amber".toList ∨ val = "green".toList then
            some val
          else none
        | none => none
      | none => none
    else none
  { words := words, sentiment_label := sentiment, token_estimate := tok }

/-- The mutable flags and diagnostics of the labeling attempt
(lines 451-465). -/
structure LabelFlow where
  didLabel : Bool := false
  label_status : LabelStatus := .stale
  promotedWords : Option (List Str) := none
  sentiment_label : Option Str := none
  output_hash_override : Option Str := none
  label_attempted : Bool := false
  cand_count : Option Nat := none
  cand_error : Option String := none
  openai_error : Option String := none
  openai_retry_attempted : Bool := false
  openai_retry_succeeded : Bool := false
  token_estimate : Option Nat := none
deriving DecidableEq

/-- The outcome of the labeling attempt: the updated `orb_labels` table, the
next label id, and the flags. -/
structure LabelStepOut where
  labels : List Label
  nextLabelId : Nat
  flow : LabelFlow
deriving DecidableEq

/-- The labeling attempt (lines 467-615): candidate fetch, OpenAI call with a
single retry, candidate-label insert, and the promotion state machine. -/
def labelingStep (env : Env) (we : ℤ) (wm : ℚ) (t : Topic) (run_id : Nat)
    (wantsSentiment hasPromoted fLabel rGate : Bool)
    (labels : List Label) (nid : Nat) : LabelStepOut :=
  if fLabel || rGate then
    match env.candidates t.id with
    | .error msg =>
      ⟨labels, nid, { label_attempted := true, cand_error := some msg }⟩
    | .ok rows =>
      match rows.head? with
      | none => ⟨labels, nid, { label_attempted := true }⟩
      | some cand =>
        let items := cand.items
        let minItems : Nat := if hasPromoted then 8 else 6
        if items.length ≥ minItems then
          match env.ai t.id 0 with
          | .ok (text, tok) =>
            labelInsertAndPromote env we wm t run_id hasPromoted
              labels nid cand
              (parseAiResponse wantsSentiment (trimChars text) tok)
              none false false
          | .error e1 =>
            match env.ai t.id 1 with
            | .ok (text, tok) =>
              labelInsertAndPromote env we wm t run_id hasPromoted
                labels nid cand
                (parseAiResponse wantsSentiment (trimChars text) tok)
                none true true
            | .error e2 =>
              ⟨labels, nid,
                { label_attempted := true
                  cand_count := some items.length
                  openai_error := some (e1 ++ "; retry_failed: " ++ e2)
                  openai_retry_attempted := true }⟩
        else
          ⟨labels, nid, { label_attempted := true, cand_count := some items.length }⟩
  else ⟨labels, nid, {}⟩
where
  /-- Lines 520-611: insert the candidate label row, then run the bootstrap
  (no promoted label yet) or steady-state (two-row stability check) branch of
  the promotion state machine. -/
  labelInsertAndPromote (env : Env) (we : ℤ) (wm : ℚ) (t : Topic) (run_id : Nat)
      (hasPromoted : Bool) (labels : List Label) (nid : Nat)
      (cand : CandRow) (ai : AiResult) (oerr : Option String)
      (rAtt rSucc : Bool) : LabelStepOut :=
    let outHash := hashWords ai.words
    let newLabel : Label :=
      { lid := nid, topic_id := t.id, window_end := we, window_minutes := wm,
        words := some ai.words, sentiment_label := ai.sentiment_label,
        input_hash := some cand.label_input_hash, output_hash := some outHash,
        status := .candidate, generatedAt := env.nowMs, run_id := run_id }
    let base : LabelFlow :=
      { didLabel := true
        label_attempted := true
        cand_count := some cand.items.length
        openai_error := oerr
        openai_retry_attempted := rAtt
        openai_retry_succeeded := rSucc
        token_estimate := ai.token_estimate }
    if hasPromoted then
      match steadyDecision (labels ++ [newLabel]) t.id with
      | some (p, s) =>
        ⟨setStatus (setStatus (labels ++ [newLabel]) p .promoted) s .stale,
          nid + 1,
          { base with
            label_status := .promoted
            promotedWords := some ai.words
            sentiment_label := ai.sentiment_label
            output_hash_override := some outHash }⟩
      | none =>
        ⟨labels ++ [newLabel], nid + 1, { base with label_status := .candidate }⟩
    else
      ⟨bootstrapLabelOp labels newLabel, nid + 1,
        { base with
          label_status := .promoted
          promotedWords := some ai.words
          sentiment_label := ai.sentiment_label
          output_hash_override := some outHash }⟩

/-- The authoritative label view used for the snapshot: words, sentiment,
output hash and label status after the labeling attempt. -/
structure LabelView where
  promotedWords : Option (List Str)
  sentiment_label : Option Str
  output_hash : Option Str
  label_status : LabelStatus
deriving DecidableEq

/-- Lines 617-623: if nothing was promoted this run, fall back to the existing
promoted label when it carries exactly three words. -/
def applyFallback (v : LabelView) (promotedExisting : Option Label) : LabelView :=
  match v.promotedWords, promotedExisting with
  | none, some pe =>
    match pe.words with
    | some ws =>
      if ws.length = 3 then
        { promotedWords := some ws
          sentiment_label := pe.sentiment_label
          output_hash := pe.output_hash.or v.output_hash
          label_status := .promoted }
      else v
    | none => v
  | _, _ => v

/-- `SENTIMENT_COLORS` (lines 23-27), looked up on the lowercased label. -/
def sentimentColor (s : Str) : Option String :=
  let ls := s.map Char.toLower
  if ls = "red".toList then some "#E24D4D"
  else if ls = "amber".toList then some "#F2B233"
  else if ls = "green".toList then some "#3CCB7F"
  else none

/-- `display_color` (lines 626-630). -/
def displayColorOf (wantsSentiment : Bool) (sentiment : Option Str)
    (resting : String) : String :=
  if wantsSentiment then
    match sentiment with
    | some s => (sentimentColor s).getD resting
    | none => resting
  else resting

/-! ### The run orchestrator (lines 262-735) -/

/-- One entry of the per-topic result array (lines 217-260).  Fields that the
program leaves `undefined` on a given path are `none`. -/
structure TopicResult where
  topic_id : String
  ok : Bool
  volume : Option ℚ := none
  diversity : Option ℚ := none
  velocity : Option ℚ := none
  velocity_per_hour : Option ℚ := none
  velocity_snapshot : Option ℚ := none
  elapsed_minutes : Option ℚ := none
  prev_window_end : Option ℤ := none
  prev_volume : Option ℚ := none
  didLabel : Option Bool := none
  label_status : Option LabelStatus := none
  wantsSentiment : Option Bool := none
  window_end : Option ℤ := none
  window_minutes : Option ℚ := none
  cadence_minutes : Option ℚ := none
  last_label_attempt_at : Option ℤ := none
  timeGateOk : Option Bool := none
  changeGateOk : Option Bool := none
  minVolOk : Option Bool := none
  firstLabelOk : Option Bool := none
  regenOk : Option Bool := none
  label_attempted : Option Bool := none
  cand_count : Option Nat := none
  cand_error : Option String := none
  openai_error : Option String := none
  openai_retry_attempted : Option Bool := none
  openai_retry_succeeded : Option Bool := none
  label_insert_error : Option String := none
  error : Option String := none
deriving DecidableEq

/-- All intermediate values of the success path of a topic's processing, so
that facts about the run are structure projections. -/
structure BodyCalc where
  stepOut : LabelStepOut
  flow : LabelFlow
  view : LabelView
  snapRow : Snapshot
  store : Store
  result : TopicResult

/-- The success path of the per-topic processing (lines 331-717): previous
state lookup, velocities, `orb_state` upsert, snapshot and label lookups,
gate evaluation, the labeling attempt, the promoted-label fallback, the
snapshot upsert and the `ok` run close-out. -/
def bodyCalc (env : Env) (we : ℤ) (wm : ℚ) (st : Store) (t : Topic)
    (run_id : Nat) (state : StateCalcRow) : BodyCalc :=
      let wantsSentiment := t.uses_sentiment_color.getD false || t.slug = "news-sentiment"
      let volume := state.volume
      let diversity := state.diversity
      let top_sources := state.top_sources
      let top_items := state.top_items
      let state_hash := state.input_hash
      let prevState := queryPrevOrbState st.orbStates t.id wm we
      let prevVol := (prevState.map (fun r => r.volume)).getD 0
      let prev_window_end := prevState.map (fun r => r.window_end)
      let elapsed_minutes : ℚ :=
        match prev_window_end with
        | some p => ((we - p : ℤ) : ℚ) / 60000
        | none => 0
      let velocity_raw := velocityRaw volume prevVol
      let velocity_per_hour := velocityPerHour velocity_raw elapsed_minutes
      let velocity_snapshot := clampQ velocity_per_hour (-VELOCITY_UI_CAP) VELOCITY_UI_CAP
      let stA : Store :=
        { st with
          orbStates := upsertOrbState st.orbStates
            { topic_id := t.id, window_end := we, window_minutes := wm,
              volume := volume, velocity := velocity_raw,
              velocity_per_hour := velocity_per_hour, diversity := diversity,
              top_sources := top_sources, top_items := top_items,
              input_hash := state_hash, computed_at := env.nowMs,
              run_id := run_id } }
      let snap := lookupSnapshot stA.snapshots t.id
      let lastAttemptMs :=
        ((labelsDescFor stA.labels t.id).head?.map (fun l => l.generatedAt)).getD 0
      let lastAttemptIso :=
        (labelsDescFor stA.labels t.id).head?.map (fun l => l.generatedAt)
      let cadenceMin := t.cadence_minutes.getD 30
      let tGate := timeGate env.nowMs lastAttemptMs cadenceMin
      let cGate := changeGate velocity_raw volume prevVol
      let mVol := minVolGate volume
      let promotedExisting := queryLatestPromoted stA.labels t.id
      let hasPromoted := promotedExisting.isSome
      let fLabel := firstLabelGate hasPromoted tGate volume
      let rGate := regenGate hasPromoted tGate cGate mVol
      let output_hash0 := snap.bind (fun s => s.output_hash)
      let stepOut := labelingStep env we wm t run_id wantsSentiment hasPromoted
        fLabel rGate stA.labels stA.nextLabelId
      let stB : Store :=
        { stA with labels := stepOut.labels, nextLabelId := stepOut.nextLabelId }
      let flow := stepOut.flow
      let view := applyFallback
        { promotedWords := flow.promotedWords
          sentiment_label := flow.sentiment_label
          output_hash := flow.output_hash_override.or output_hash0
          label_status := flow.label_status }
        promotedExisting
      let resting_color := t.orb_color.getD "#999999"
      let display_color := displayColorOf wantsSentiment view.sentiment_label resting_color
      let keywordsFallback := (snap.bind (fun s => s.keywords)).getD []
      let keywordsToWrite := view.promotedWords.getD keywordsFallback
      let snapRow : Snapshot :=
        { keywords := some keywordsToWrite
          sentiment_label := view.sentiment_label
          sentiment_score := none
          summary := none
          output_hash := view.output_hash
          updated_at := env.nowMs
          window_end := we
          window_minutes := wm
          volume := volume
          velocity := velocity_snapshot
          diversity := diversity
          top_sources := top_sources
          top_items := top_items
          state_hash := state_hash
          resting_color := resting_color
          display_color := display_color
          label_status := view.label_status }
      let stC : Store := { stB with snapshots := upsertSnapshot stB.snapshots t.id snapRow }
      let stD : Store :=
        { stC with runs := finishRunOk stC.runs run_id view.output_hash flow.token_estimate }
      ⟨stepOut, flow, view, snapRow, stD,
        { topic_id := t.id
          ok := true
          window_end := some we
          window_minutes := some wm
          wantsSentiment := some wantsSentiment
          volume := some volume
          diversity := some diversity
          velocity := some velocity_raw
          velocity_per_hour := some velocity_per_hour
          velocity_snapshot := some velocity_snapshot
          elapsed_minutes := some elapsed_minutes
          prev_window_end := prev_window_end
          prev_volume := some prevVol
          cadence_minutes := some cadenceMin
          last_label_attempt_at := lastAttemptIso
          timeGateOk := some tGate
          changeGateOk := some cGate
          minVolOk := some mVol
          firstLabelOk := some fLabel
          regenOk := some rGate
          didLabel := some flow.didLabel
          label_status := some view.label_status
          label_attempted := some flow.label_attempted
          cand_count := flow.cand_count
          cand_error := flow.cand_error
          openai_error := flow.openai_error
          openai_retry_attempted := some flow.openai_retry_attempted
          openai_retry_succeeded := some flow.openai_retry_succeeded
          label_insert_error := none }⟩

/-- The per-topic processing inside the `try` block (lines 320-717).  The only
`throw` reachable in the model is the state-calc failure (line 329); store
reads and writes are pure here. -/
def topicBody (env : Env) (we : ℤ) (wm : ℚ) (st : Store) (t : Topic)
    (run_id : Nat) : Except String (Store × TopicResult) :=
  match env.stateCalc t.id with
  | .error m => .error m
  | .ok rows =>
    match rows.head? with
    | none => .error "state calc failed"
    | some state =>
      .ok ((bodyCalc env we wm st t run_id state).store,
        (bodyCalc env we wm st t run_id state).result)

/-- One iteration of the topic loop (lines 292-732): insert the `started` run
row, run the body, and catch any thrown error at the topic boundary, closing
the run as `error` and marking the topic failed. -/
def processTopic (env : Env) (we : ℤ) (wm : ℚ) (st : Store) (t : Topic) :
    Store × TopicResult :=
  let run_id := st.nextRunId
  let st1 := insertRun st t.id we wm
  match topicBody env we wm st1 t run_id with
  | .ok r => r
  | .error msg =>
    (closeRunError st1 run_id msg,
      { topic_id := t.id, ok := false, error := some msg })

/-- The topic loop: strictly sequential, one result entry per topic. -/
def runBatch (env : Env) (we : ℤ) (wm : ℚ) (st : Store) :
    List Topic → Store × List TopicResult
  | [] => (st, [])
  | t :: rest =>
    let p := processTopic env we wm st t
    let q := runBatch env we wm p.1 rest
    (q.1, p.2 :: q.2)

/-- The JSON response of the endpoint (lines 270-275, 286, 734). -/
structure Response where
  ok : Bool
  error : Option String := none
  details : Option String := none
  window_end : Option ℤ := none
  window_minutes : Option ℚ := none
  topics : Option Nat := none
  results : List TopicResult := []
deriving DecidableEq

/-- `recomputeOrbs` (lines 262-735): align the window, clamp the requested
window length, run the category backfill and the enabled-topics listing
(each failure aborts the whole invocation), then process every topic in
order. -/
def recomputeOrbs (env : Env) (reqWindowMinutes : Option JSNum) (st : Store) :
    Store × Response :=
  let we := alignedWindowEndMs env.nowMs
  let wm := requestWindowMinutes reqWindowMinutes
  match env.backfill with
  | .error details =>
    (st, { ok := false, error := some "fn_item_categories_backfill_recent failed",
           details := some details })
  | .ok _ =>
    match env.topicsLoad with
    | .error m => (st, { ok := false, error := some m })
    | .ok topics =>
      let q := runBatch env we wm st topics
      (q.1,
        { ok := true, window_end := some we, window_minutes := some wm,
          topics := some topics.length, results := q.2 })

end Orbs

namespace Orbs

/-! ## Helper lemmas -/

/-- The clamp returns 60 for every non-finite or non-positive input. -/
theorem clampWindowMinutes_nonpos_or_nonfinite (x : JSNum)
    (h : x.isFinite = false ∨ ∃ q : ℚ, x = .num q ∧ q ≤ 0) :
    clampWindowMinutes x = 60 := by
  cases x with
  | num q =>
    rcases h with h | ⟨q', hq', hle⟩
    · simp [JSNum.isFinite] at h
    · obtain rfl : q = q' := by injection hq'
      simp [clampWindowMinutes, if_pos hle]
  | nan => rfl
  | inf => rfl
  | ninf => rfl

/-- Rounding a rational in `[5, 1440]` stays in `[5, 1440]`. -/
theorem jsRound_bounds {q : ℚ} (h5 : 5 ≤ q) (h14 : q ≤ 1440) :
    5 ≤ jsRound q ∧ jsRound q ≤ 1440 := by
  unfold jsRound
  constructor
  · have h : (5 : ℤ) ≤ ⌊q + 1/2⌋ := by
      rw [Int.le_floor]; push_cast; linarith
    exact_mod_cast h
  · have h : ⌊q + 1/2⌋ < 1441 := by
      rw [Int.floor_lt]; push_cast; linarith
    have h' : ⌊q + 1/2⌋ ≤ 1440 := by omega
    exact_mod_cast h'

/-- The clamp always lands in `[5, 1440]`. -/
theorem clampWindowMinutes_mem (x : JSNum) :
    5 ≤ clampWindowMinutes x ∧ clampWindowMinutes x ≤ 1440 := by
  cases x with
  | num q =>
    simp only [clampWindowMinutes]
    split_ifs with h1 h2 h3
    · norm_num
    · norm_num
    · norm_num
    · exact jsRound_bounds (by linarith) (by linarith)
  | nan => norm_num [clampWindowMinutes]
  | inf => norm_num [clampWindowMinutes]
  | ninf => norm_num [clampWindowMinutes]

/-! ## Claims -/

/-- C4 counterexample: the claim states that any input below the range clamps
to the nearest bound, so that any `n < 5` yields 5; but the code returns the
default 60 (not 5) at the in-range-of-the-claim input `n = 0`. -/
theorem clampWindowMinutes_zero_gives_default :
    clampWindowMinutes (.num 0) = 60 ∧ clampWindowMinutes (.num 0) ≠ 5 := by decide

/-- C4 (amended): the window-length clamp always returns a value in
`[5, 1440]`; a finite input strictly between 0 and 5 clamps up to 5 and a
finite input above 1440 clamps down to 1440, without erroring; but a
non-finite or non-positive input yields the default 60 rather than the
nearest bound. -/
theorem clampWindowMinutes_amended (x : JSNum) :
    (5 ≤ clampWindowMinutes x ∧ clampWindowMinutes x ≤ 1440) ∧
    (∀ q : ℚ, x = .num q → 0 < q → q < 5 → clampWindowMinutes x = 5) ∧
    (∀ q : ℚ, x = .num q → 1440 < q → clampWindowMinutes x = 1440) ∧
    ((x.isFinite = false ∨ ∃ q : ℚ, x = .num q ∧ q ≤ 0) →
      clampWindowMinutes x = 60) := by
  refine ⟨clampWindowMinutes_mem x, ?_, ?_, clampWindowMinutes_nonpos_or_nonfinite x⟩
  · intro q hq hpos hlt
    subst hq
    simp only [clampWindowMinutes]
    rw [if_neg (by linarith), if_pos hlt]
  · intro q hq hgt
    subst hq
    simp only [clampWindowMinutes]
    rw [if_neg (by linarith), if_neg (by linarith), if_pos hgt]

/-- C4 witness: the amended clamp evaluated at 3, 2000 and NaN. -/
theorem clampWindowMinutes_amended_witness :
    clampWindowMinutes (.num 3) = 5 ∧ clampWindowMinutes (.num 2000) = 1440 ∧
    clampWindowMinutes .nan = 60 :=
  ⟨(clampWindowMinutes_amended (.num 3)).2.1 3 rfl (by norm_num) (by norm_num),
   (clampWindowMinutes_amended (.num 2000)).2.2.1 2000 rfl (by norm_num),
   (clampWindowMinutes_amended .nan).2.2.2 (Or.inl rfl)⟩

/-- C9: when the request omits `window_minutes`, or supplies a value that is
not a finite positive number, the run uses a window length of 60 minutes, not
the lower clamp bound 5. -/
theorem requestWindowMinutes_default (x : JSNum) :
    requestWindowMinutes none = 60 ∧
    ((x.isFinite = false ∨ ∃ q : ℚ, x = .num q ∧ q ≤ 0) →
      requestWindowMinutes (some x) = 60 ∧ requestWindowMinutes (some x) ≠ 5) := by
  constructor
  · norm_num [requestWindowMinutes, clampWindowMinutes, jsRound]
  · intro h
    have h60 : clampWindowMinutes x = 60 := clampWindowMinutes_nonpos_or_nonfinite x h
    constructor
    · simpa [requestWindowMinutes] using h60
    · simp [requestWindowMinutes, h60]

/-- C9 witness: a NaN override (a non-numeric JSON value coerced by
`Number`) still yields 60. -/
theorem requestWindowMinutes_default_witness :
    requestWindowMinutes (some .nan) = 60 ∧ requestWindowMinutes (some .nan) ≠ 5 :=
  (requestWindowMinutes_default .nan).2 (Or.inl rfl)

/-- C6: the velocity calculator returns `(current - previous) / previous`
when the previous volume is positive and 0 otherwise (in particular 0
whenever the previous volume is 0, for every current volume); the hourly
velocity is `raw * (60 / elapsed)` for positive elapsed minutes and 0
otherwise; and previous volume 100, current 150, elapsed 60 minutes give raw
velocity 1/2 and hourly velocity 1/2. -/
theorem velocity_calculator_spec :
    (∀ current : ℚ, velocityRaw current 0 = 0) ∧
    (∀ current prev : ℚ, 0 < prev → velocityRaw current prev = (current - prev) / prev) ∧
    (∀ current prev : ℚ, ¬0 < prev → velocityRaw current prev = 0) ∧
    (∀ raw e : ℚ, 0 < e → velocityPerHour raw e = raw * (60 / e)) ∧
    (∀ raw e : ℚ, ¬0 < e → velocityPerHour raw e = 0) ∧
    velocityRaw 150 100 = 1/2 ∧ velocityPerHour (velocityRaw 150 100) 60 = 1/2 := by
  refine ⟨fun c => by simp [velocityRaw], fun c p hp => if_pos hp,
    fun c p hp => if_neg hp, fun r e he => if_pos he, fun r e he => if_neg he,
    by norm_num [velocityRaw], by norm_num [velocityRaw, velocityPerHour]⟩

/-- C6 witness: the velocity equations evaluated at the concrete inputs of
the claim. -/
theorem velocity_calculator_spec_witness :
    velocityRaw 7 0 = 0 ∧ velocityRaw 150 100 = (150 - 100) / 100 ∧
    velocityPerHour (1/2) 60 = (1/2) * (60 / 60) ∧ velocityPerHour (1/2) 0 = 0 :=
  ⟨velocity_calculator_spec.1 7,
   velocity_calculator_spec.2.1 150 100 (by norm_num),
   velocity_calculator_spec.2.2.2.1 (1/2) 60 (by norm_num),
   velocity_calculator_spec.2.2.2.2.1 (1/2) 0 (by norm_num)⟩

/-- C8: window-end alignment is idempotent over 5-minute slots: any instant
within the slot started by an aligned instant aligns to the same window-end,
and aligning an already-aligned instant returns it unchanged. -/
theorem alignedWindowEnd_slot_idempotent :
    (∀ a b : ℤ, alignedWindowEndMs a ≤ b → b < alignedWindowEndMs a + 300000 →
      alignedWindowEndMs b = alignedWindowEndMs a) ∧
    (∀ ms : ℤ, alignedWindowEndMs (alignedWindowEndMs ms) = alignedWindowEndMs ms) := by
  have hstep : (alignStepMs : ℚ) = 300000 := by norm_num [alignStepMs]
  have key : ∀ k : ℤ, ∀ b : ℤ, k * 300000 ≤ b → b < k * 300000 + 300000 →
      alignedWindowEndMs b = k * 300000 := by
    intro k b hlo hhi
    have hfloor : ⌊(b : ℚ) / (alignStepMs : ℚ)⌋ = k := by
      rw [Int.floor_eq_iff, hstep]
      constructor
      · rw [le_div_iff₀ (by norm_num : (0:ℚ) < 300000)]
        exact_mod_cast hlo
      · rw [div_lt_iff₀ (by norm_num : (0:ℚ) < 300000)]
        have hhi' : (b : ℚ) < (k : ℚ) * 300000 + 300000 := by exact_mod_cast hhi
        linarith
    simp only [alignedWindowEndMs, hfloor]
    norm_num [alignStepMs]
  constructor
  · intro a b hlo hhi
    have ha : alignedWindowEndMs a = ⌊(a : ℚ) / (alignStepMs : ℚ)⌋ * 300000 := by
      simp only [alignedWindowEndMs]; norm_num [alignStepMs]
    rw [ha] at hlo hhi ⊢
    exact key _ b hlo hhi
  · intro ms
    have h : alignedWindowEndMs ms = ⌊(ms : ℚ) / (alignStepMs : ℚ)⌋ * 300000 := by
      simp only [alignedWindowEndMs]; norm_num [alignStepMs]
    rw [h]
    exact key _ _ (le_refl _) (by linarith)

/-- C8 witness: two instants inside the same slot and an aligned instant. -/
theorem alignedWindowEnd_slot_idempotent_witness :
    alignedWindowEndMs 1700000123456 = alignedWindowEndMs 1700000100000 ∧
    alignedWindowEndMs (alignedWindowEndMs 1700000123456) =
      alignedWindowEndMs 1700000123456 := by
  have h0 : alignedWindowEndMs 1700000100000 = 1700000100000 := by
    norm_num [alignedWindowEndMs, alignStepMs]
  refine ⟨?_, alignedWindowEnd_slot_idempotent.2 1700000123456⟩
  have h := alignedWindowEnd_slot_idempotent.1 1700000100000 1700000123456
    (by rw [h0]; norm_num) (by rw [h0]; norm_num)
  rw [h]

/-- Whenever the gate disjunction holds, the labeling attempt is recorded. -/
theorem labelingStep_attempted {env : Env} {we : ℤ} {wm : ℚ} {t : Topic}
    {rid : Nat} {ws hasPromoted fLabel rGate : Bool} {labels : List Label}
    {nid : Nat} (h : (fLabel || rGate) = true) :
    (labelingStep env we wm t rid ws hasPromoted fLabel rGate
      labels nid).flow.label_attempted = true := by
  unfold labelingStep labelingStep.labelInsertAndPromote
  rw [if_pos h]
  repeat' first
    | rfl
    | split
    | dsimp only

/-- C5: the bootstrap path of the gate evaluator fires — and a label attempt
is recorded by the labeling step — whenever no promoted label exists, the
cadence gate holds and volume is at least the bootstrap floor 10, for every
value of the change-magnitude inputs (including change magnitude 0). -/
theorem gate_bootstrap_fires (env : Env) (we : ℤ) (wm : ℚ) (t : Topic)
    (rid : Nat) (ws : Bool) (labels : List Label) (nid : Nat)
    (nowMs last : ℤ) (cad volume vel prevVol : ℚ)
    (htime : timeGate nowMs last cad = true) (hvol : 10 ≤ volume) :
    firstLabelGate false (timeGate nowMs last cad) volume = true ∧
    (firstLabelGate false (timeGate nowMs last cad) volume ||
      regenGate false (timeGate nowMs last cad) (changeGate vel volume prevVol)
        (minVolGate volume)) = true ∧
    (labelingStep env we wm t rid ws false
        (firstLabelGate false (timeGate nowMs last cad) volume)
        (regenGate false (timeGate nowMs last cad) (changeGate vel volume prevVol)
          (minVolGate volume)) labels nid).flow.label_attempted = true := by
  have h1 : firstLabelGate false (timeGate nowMs last cad) volume = true := by
    simp [firstLabelGate, htime, hvol]
  exact ⟨h1, by simp [h1], labelingStep_attempted (by simp [h1])⟩

/-- C5 witness: a topic with no labels, cadence clock at zero, volume exactly
at the bootstrap floor and change magnitude 0. -/
theorem gate_bootstrap_fires_witness :
    firstLabelGate false (timeGate 0 0 30) 10 = true ∧
    (firstLabelGate false (timeGate 0 0 30) 10 ||
      regenGate false (timeGate 0 0 30) (changeGate 0 10 0) (minVolGate 10)) = true ∧
    (labelingStep
        { nowMs := 0, backfill := .ok (), topicsLoad := .ok [],
          stateCalc := fun _ => .ok [], candidates := fun _ => .ok [],
          ai := fun _ _ => .error "unavailable" }
        0 60
        { id := "t1", name := [], slug := "t1", orb_color := none,
          cadence_minutes := none, is_enabled := true, uses_sentiment_color := none }
        0 false false
        (firstLabelGate false (timeGate 0 0 30) 10)
        (regenGate false (timeGate 0 0 30) (changeGate 0 10 0) (minVolGate 10))
        [] 0).flow.label_attempted = true :=
  gate_bootstrap_fires _ _ _ _ _ _ _ _ 0 0 30 10 0 0 (by decide) (by norm_num)

/-- `Char.ofNat` round-trips through `toNat` below the surrogate range. -/
theorem char_toNat_ofNat_small (n : Nat) (h : n < 55296) :
    (Char.ofNat n).toNat = n := by
  rw [Char.ofNat, dif_pos (Or.inl h)]
  rfl

/-- `Char.toUpper` never produces an ASCII lowercase letter. -/
theorem char_toUpper_not_lowercase (c : Char) :
    (Char.toUpper c).toNat < 97 ∨ 122 < (Char.toUpper c).toNat := by
  simp only [Char.toUpper]
  by_cases h : c.toNat ≥ 97 ∧ c.toNat ≤ 122
  · rw [if_pos h]
    rw [char_toNat_ofNat_small (c.toNat - 32) (by omega)]
    omega
  · rw [if_neg h]
    omega

/-- The sanitizer always returns exactly three tokens. -/
theorem safeThreeWords_length (raw : Str) : (safeThreeWords raw).length = 3 := by
  unfold safeThreeWords
  simp only [List.length_map, List.length_append, List.length_replicate,
    List.length_take]
  omega

/-- No character of a sanitized token is an ASCII lowercase letter. -/
theorem safeThreeWords_uppercase (raw : Str) :
    ∀ w ∈ safeThreeWords raw, ∀ c ∈ w, c.toNat < 97 ∨ 122 < c.toNat := by
  intro w hw c hc
  unfold safeThreeWords at hw
  rw [List.mem_map] at hw
  obtain ⟨x, hx, rfl⟩ := hw
  rw [List.mem_map] at hc
  obtain ⟨c0, hc0, rfl⟩ := hc
  exact char_toUpper_not_lowercase c0

/-- C7: for every raw input, the label sanitizer returns exactly three
tokens, none containing a lowercase ASCII letter (padding with the
placeholder token when fewer than three are recoverable); in particular
`"Markets, Rally, Globally"` yields `["MARKETS","RALLY","GLOBALLY"]`, and a
one-token input pads with two placeholders. -/
theorem safeThreeWords_spec :
    (∀ raw : Str, (safeThreeWords raw).length = 3) ∧
    (∀ raw : Str, ∀ w ∈ safeThreeWords raw, ∀ c ∈ w, c.toNat < 97 ∨ 122 < c.toNat) ∧
    safeThreeWords "Markets, Rally, Globally".toList =
      ["MARKETS".toList, "RALLY".toList, "GLOBALLY".toList] ∧
    safeThreeWords "Solar".toList = ["SOLAR".toList, placeholderWord, placeholderWord] :=
  ⟨safeThreeWords_length, safeThreeWords_uppercase, by decide, by decide⟩

/-- C7 witness: the membership implications evaluated on a concrete input. -/
theorem safeThreeWords_spec_witness :
    (safeThreeWords "Solar".toList).length = 3 ∧
    (('S' : Char).toNat < 97 ∨ 122 < ('S' : Char).toNat) :=
  ⟨safeThreeWords_spec.1 "Solar".toList,
   safeThreeWords_spec.2.1 "Solar".toList "SOLAR".toList (by decide) 'S' (by decide)⟩

/-- `"Markets, Rally, Globally"` sanitizes to the expected triple. -/
example : safeThreeWords "Markets, Rally, Globally".toList =
    ["MARKETS".toList, "RALLY".toList, "GLOBALLY".toList] := by decide

example : safeThreeWords "Solar".toList =
    ["SOLAR".toList, placeholderWord, placeholderWord] := by decide

example : clampWindowMinutes (.num 0) = 60 := by decide
example : clampWindowMinutes .nan = 60 := by decide
example : clampWindowMinutes (.num 3) = 5 := by decide
example : clampWindowMinutes (.num 2000) = 1440 := by decide
example : requestWindowMinutes none = 60 := by
  norm_num [requestWindowMinutes, clampWindowMinutes, jsRound]
example : velocityRaw 150 100 = 1/2 := by norm_num [velocityRaw]
example : velocityPerHour (velocityRaw 150 100) 60 = 1/2 := by
  norm_num [velocityRaw, velocityPerHour]
example : alignedWindowEndMs 1700000123456 = 1700000100000 := by
  norm_num [alignedWindowEndMs, alignStepMs]

/-- Run 1 of the C1 trace: the bootstrap candidate, output hash `HA`. -/
def traceLabelA : Label :=
  ⟨0, "t", 0, 60, some [], none, none, some "HA".toList, .candidate, 0, 0⟩

/-- Run 2 of the C1 trace: a steady-state candidate with a differing output
hash `HB`; the stability check leaves it a candidate. -/
def traceLabelB : Label :=
  ⟨1, "t", 0, 60, some [], none, none, some "HB".toList, .candidate, 1, 1⟩

/-- Run 3 of the C1 trace: a second candidate with output hash `HB`. -/
def traceLabelC : Label :=
  ⟨2, "t", 0, 60, some [], none, none, some "HB".toList, .candidate, 2, 2⟩

/-- C1: the promotion state machine does not preserve the at-most-one-promoted
invariant.  Starting from an empty label table: the bootstrap operation leaves
one promoted row; a steady-state operation whose candidate hash differs leaves
that single promoted row; but the following steady-state operation, whose
candidate hash matches the intermediate candidate, promotes the new row while
staling only the intermediate candidate — the originally promoted row is never
demoted, so the topic ends with two promoted rows. -/
theorem promotion_invariant_violated :
    promotedCount (bootstrapLabelOp [] traceLabelA) "t" = 1 ∧
    promotedCount (steadyLabelOp (bootstrapLabelOp [] traceLabelA) traceLabelB)
      "t" = 1 ∧
    promotedCount
      (steadyLabelOp (steadyLabelOp (bootstrapLabelOp [] traceLabelA) traceLabelB)
        traceLabelC) "t" = 2 := by decide

/-- An element of the updated list carrying the updated id has the new
status. -/
theorem setStatus_status_of_lid {ls : List Label} {i : Nat} {s : LabelStatus} :
    ∀ l ∈ setStatus ls i s, l.lid = i → l.status = s := by
  intro l hl hlid
  rw [setStatus, List.mem_map] at hl
  obtain ⟨x, hx, hfx⟩ := hl
  by_cases hxi : x.lid = i
  · rw [if_pos hxi] at hfx
    rw [← hfx]
  · rw [if_neg hxi] at hfx
    subst hfx
    exact absurd hlid hxi

/-- A row with a different id survives `setStatus` unchanged. -/
theorem mem_setStatus_of_ne {ls : List Label} {i : Nat} {s : LabelStatus}
    {l : Label} (hl : l ∈ ls) (hne : l.lid ≠ i) : l ∈ setStatus ls i s := by
  rw [setStatus, List.mem_map]
  exact ⟨l, hl, by rw [if_neg hne]⟩

/-- A row of the updated list with a different id was already present. -/
theorem mem_of_mem_setStatus_ne {ls : List Label} {i : Nat} {s : LabelStatus}
    {l : Label} (hl : l ∈ setStatus ls i s) (hne : l.lid ≠ i) : l ∈ ls := by
  rw [setStatus, List.mem_map] at hl
  obtain ⟨x, hx, hfx⟩ := hl
  by_cases hxi : x.lid = i
  · rw [if_pos hxi] at hfx
    subst hfx
    exact absurd hxi hne
  · rw [if_neg hxi] at hfx
    subst hfx
    exact hx

/-- C2: in the steady-state promotion step (a promoted label exists, the new
candidate was just inserted, and the two most recent labels of the topic by
generation time are the new candidate and the previously promoted label): if
their output hashes are equal and non-null, the newer label is set to
`promoted` and the older, previously promoted label is set to `stale` (all
other rows unchanged); if they are not both non-null and equal, the store is
left exactly as inserted — the new label remains `candidate` and no promoted
row is altered. -/
theorem steady_promotion_spec (ls : List Label) (c p : Label)
    (hc : c.status = .candidate) (hpstat : p.status = .promoted)
    (hne : c.lid ≠ p.lid)
    (htake : (labelsDescFor (ls ++ [c]) c.topic_id).take 2 = [c, p]) :
    ((∃ h : Str, c.output_hash = some h ∧ p.output_hash = some h) →
      (∀ l ∈ steadyLabelOp ls c, l.lid = c.lid → l.status = .promoted) ∧
      (∀ l ∈ steadyLabelOp ls c, l.lid = p.lid → l.status = .stale) ∧
      (∀ l ∈ ls ++ [c], l.lid ≠ c.lid → l.lid ≠ p.lid → l ∈ steadyLabelOp ls c)) ∧
    ((∀ h : Str, ¬(c.output_hash = some h ∧ p.output_hash = some h)) →
      steadyLabelOp ls c = ls ++ [c] ∧ c.status = .candidate) := by
  constructor
  · rintro ⟨h, hch, hph⟩
    have hdec : steadyDecision (ls ++ [c]) c.topic_id = some (c.lid, p.lid) := by
      unfold steadyDecision
      rw [htake]
      simp [hch, hph]
    have hres : steadyLabelOp ls c =
        setStatus (setStatus (ls ++ [c]) c.lid .promoted) p.lid .stale := by
      unfold steadyLabelOp steadyPromotionStep
      rw [hdec]
    refine ⟨?_, ?_, ?_⟩
    · intro l hl hlid
      rw [hres] at hl
      have hl' : l ∈ setStatus (ls ++ [c]) c.lid .promoted :=
        mem_of_mem_setStatus_ne hl (by rw [hlid]; exact hne)
      exact setStatus_status_of_lid l hl' hlid
    · intro l hl hlid
      rw [hres] at hl
      exact setStatus_status_of_lid l hl hlid
    · intro l hl h1 h2
      rw [hres]
      exact mem_setStatus_of_ne (mem_setStatus_of_ne hl h1) h2
  · intro hno
    have hdec : steadyDecision (ls ++ [c]) c.topic_id = none := by
      unfold steadyDecision
      rw [htake]
      cases hch : c.output_hash with
      | none => simp [hch]
      | some h0 =>
        cases hph : p.output_hash with
        | none => simp [hch, hph]
        | some h1 =>
          have hne01 : h0 ≠ h1 := by
            intro he
            exact hno h0 ⟨hch, by rw [hph, he]⟩
          simp [hch, hph, hne01]
    have hres : steadyLabelOp ls c = ls ++ [c] := by
      unfold steadyLabelOp steadyPromotionStep
      rw [hdec]
    exact ⟨hres, hc⟩

/-- The previously promoted row of the C2 witness instance. -/
def witnessPromotedLabel : Label :=
  ⟨0, "t", 0, 60, some [], none, none, some "H1".toList, .promoted, 0, 0⟩

/-- The freshly inserted candidate of the C2 witness instance, with the same
output hash `H1`. -/
def witnessCandidateLabel : Label :=
  ⟨1, "t", 0, 60, some [], none, none, some "H1".toList, .candidate, 1, 1⟩

/-- The three possible shapes of the labeling flags: nothing inserted (stale,
fallback pending), promoted this run, or a fresh candidate left unpromoted. -/
def flowShapeOk (f : LabelFlow) : Prop :=
  (f.label_status = .stale ∧ f.didLabel = false ∧ f.promotedWords = none) ∨
  (f.label_status = .promoted ∧ f.didLabel = true ∧ f.promotedWords.isSome = true) ∨
  (f.label_status = .candidate ∧ f.didLabel = true ∧ f.promotedWords = none)

/-- Every outcome of the labeling attempt has one of the three shapes. -/
theorem labelingStep_flow_shape (env : Env) (we : ℤ) (wm : ℚ) (t : Topic)
    (rid : Nat) (ws hasPromoted fLabel rGate : Bool) (labels : List Label)
    (nid : Nat) :
    flowShapeOk (labelingStep env we wm t rid ws hasPromoted fLabel rGate
      labels nid).flow := by
  unfold labelingStep labelingStep.labelInsertAndPromote
  repeat' first
    | split
    | dsimp only
  all_goals simp [flowShapeOk]

/-- After the conflict-update map, the updated key finds the new row. -/
theorem find?_upsert_map_self (sns : List (String × Snapshot)) (tid : String)
    (row : Snapshot) (hany : sns.any (fun p => decide (p.1 = tid)) = true) :
    (sns.map (fun p => if p.1 = tid then (tid, row) else p)).find?
      (fun p => decide (p.1 = tid)) = some (tid, row) := by
  induction sns with
  | nil => simp at hany
  | cons p rest ih =>
    by_cases hp : p.1 = tid
    · simp [hp]
    · simp only [List.any_cons] at hany
      simp only [hp, decide_eq_true_eq, Bool.false_or] at hany
      simp only [List.map_cons, if_neg hp]
      rw [List.find?_cons_of_neg _ (by simpa using hp)]
      exact ih hany

/-- The conflict-update map of a different key does not change a key's
search. -/
theorem find?_upsert_map_ne (sns : List (String × Snapshot)) (tid tid' : String)
    (row : Snapshot) (hne : tid ≠ tid') :
    (sns.map (fun p => if p.1 = tid' then (tid', row) else p)).find?
      (fun p => decide (p.1 = tid)) = sns.find? (fun p => decide (p.1 = tid)) := by
  induction sns with
  | nil => rfl
  | cons p rest ih =>
    by_cases hp : p.1 = tid'
    · have hpt : ¬p.1 = tid := by
        rw [hp]
        exact fun h => hne h.symm
      simp only [List.map_cons, if_pos hp]
      rw [List.find?_cons_of_neg _ (by simpa using Ne.symm hne),
        List.find?_cons_of_neg _ (by simpa using hpt)]
      exact ih
    · simp only [List.map_cons, if_neg hp]
      by_cases hptid : p.1 = tid
      · rw [List.find?_cons_of_pos _ (by simpa using hptid),
          List.find?_cons_of_pos _ (by simpa using hptid)]
      · rw [List.find?_cons_of_neg _ (by simpa using hptid),
          List.find?_cons_of_neg _ (by simpa using hptid)]
        exact ih

/-- Looking up the upserted key returns the upserted row. -/
theorem lookupSnapshot_upsert_self (sns : List (String × Snapshot))
    (tid : String) (row : Snapshot) :
    lookupSnapshot (upsertSnapshot sns tid row) tid = some row := by
  unfold upsertSnapshot
  split
  case isTrue hany =>
    unfold lookupSnapshot
    rw [find?_upsert_map_self sns tid row hany]
    rfl
  case isFalse hany =>
    unfold lookupSnapshot
    rw [List.find?_append]
    have hnone : sns.find? (fun p => decide (p.1 = tid)) = none := by
      rw [List.find?_eq_none]
      intro p hp hdec
      exact hany (List.any_eq_true.mpr ⟨p, hp, hdec⟩)
    rw [hnone]
    simp

/-- Upserting one key leaves every other key's lookup unchanged. -/
theorem lookupSnapshot_upsert_ne (sns : List (String × Snapshot))
    (tid tid' : String) (row : Snapshot) (hne : tid ≠ tid') :
    lookupSnapshot (upsertSnapshot sns tid' row) tid = lookupSnapshot sns tid := by
  unfold upsertSnapshot
  split
  case isTrue hany =>
    unfold lookupSnapshot
    rw [find?_upsert_map_ne sns tid tid' row hne]
  case isFalse hany =>
    unfold lookupSnapshot
    rw [List.find?_append]
    have hsingle : ([(tid', row)].find? (fun p => decide (p.1 = tid))) = none := by
      simp
      exact fun h => hne h.symm
    rw [hsingle]
    cases sns.find? (fun p => decide (p.1 = tid)) <;> rfl

/-- The fallback is inert when something was promoted this run. -/
theorem applyFallback_of_isSome (v : LabelView) (pe? : Option Label)
    (h : v.promotedWords.isSome = true) : applyFallback v pe? = v := by
  cases hv : v.promotedWords with
  | none => rw [hv] at h; simp at h
  | some w => cases pe? <;> simp [applyFallback, hv]

/-- The fallback is inert when the existing promoted label does not carry
exactly three words. -/
theorem applyFallback_of_no_three (v : LabelView) (pe? : Option Label)
    (hv : v.promotedWords = none)
    (h : ∀ pe, pe? = some pe → ∀ ws, pe.words = some ws → ws.length ≠ 3) :
    applyFallback v pe? = v := by
  cases pe? with
  | none => simp [applyFallback, hv]
  | some pe =>
    cases hw : pe.words with
    | none => simp [applyFallback, hv, hw]
    | some ws =>
      have h3 := h pe rfl ws hw
      simp [applyFallback, hv, hw, h3]

/-- The final store's snapshots are exactly the upsert of the topic's row. -/
theorem bodyCalc_store_snapshots (env : Env) (we : ℤ) (wm : ℚ) (st : Store)
    (t : Topic) (rid : Nat) (state : StateCalcRow) :
    (bodyCalc env we wm st t rid state).store.snapshots =
      upsertSnapshot st.snapshots t.id (bodyCalc env we wm st t rid state).snapRow :=
  rfl

/-- The final store's runs are exactly the `ok` close-out of the run row. -/
theorem bodyCalc_store_runs (env : Env) (we : ℤ) (wm : ℚ) (st : Store)
    (t : Topic) (rid : Nat) (state : StateCalcRow) :
    (bodyCalc env we wm st t rid state).store.runs =
      finishRunOk st.runs rid (bodyCalc env we wm st t rid state).view.output_hash
        (bodyCalc env we wm st t rid state).flow.token_estimate :=
  rfl

/-- The success path does not consume run ids. -/
theorem bodyCalc_store_nextRunId (env : Env) (we : ℤ) (wm : ℚ) (st : Store)
    (t : Topic) (rid : Nat) (state : StateCalcRow) :
    (bodyCalc env we wm st t rid state).store.nextRunId = st.nextRunId :=
  rfl

/-- The reported label status is the view's status. -/
theorem bodyCalc_result_label_status (env : Env) (we : ℤ) (wm : ℚ) (st : Store)
    (t : Topic) (rid : Nat) (state : StateCalcRow) :
    (bodyCalc env we wm st t rid state).result.label_status =
      some (bodyCalc env we wm st t rid state).view.label_status :=
  rfl

/-- The reported `didLabel` flag is the labeling flow's flag. -/
theorem bodyCalc_result_didLabel (env : Env) (we : ℤ) (wm : ℚ) (st : Store)
    (t : Topic) (rid : Nat) (state : StateCalcRow) :
    (bodyCalc env we wm st t rid state).result.didLabel =
      some (bodyCalc env we wm st t rid state).flow.didLabel :=
  rfl

/-- A successful topic result names its topic and is marked ok. -/
theorem bodyCalc_result_basic (env : Env) (we : ℤ) (wm : ℚ) (st : Store)
    (t : Topic) (rid : Nat) (state : StateCalcRow) :
    (bodyCalc env we wm st t rid state).result.topic_id = t.id ∧
      (bodyCalc env we wm st t rid state).result.ok = true :=
  ⟨rfl, rfl⟩

/-- The snapshot row is written with the view's label status. -/
theorem bodyCalc_snapRow_label_status (env : Env) (we : ℤ) (wm : ℚ) (st : Store)
    (t : Topic) (rid : Nat) (state : StateCalcRow) :
    (bodyCalc env we wm st t rid state).snapRow.label_status =
      (bodyCalc env we wm st t rid state).view.label_status :=
  rfl

/-- The view is the fallback applied to the labeling flow's outcome and the
pre-existing promoted label. -/
theorem bodyCalc_view_eq (env : Env) (we : ℤ) (wm : ℚ) (st : Store)
    (t : Topic) (rid : Nat) (state : StateCalcRow) :
    (bodyCalc env we wm st t rid state).view =
      applyFallback
        { promotedWords := (bodyCalc env we wm st t rid state).flow.promotedWords
          sentiment_label := (bodyCalc env we wm st t rid state).flow.sentiment_label
          output_hash := (bodyCalc env we wm st t rid state).flow.output_hash_override.or
            ((lookupSnapshot st.snapshots t.id).bind (fun s => s.output_hash))
          label_status := (bodyCalc env we wm st t rid state).flow.label_status }
        (queryLatestPromoted st.labels t.id) :=
  rfl

/-- The labeling flow of the success path has one of the three shapes. -/
theorem bodyCalc_flow_shape (env : Env) (we : ℤ) (wm : ℚ) (st : Store)
    (t : Topic) (rid : Nat) (state : StateCalcRow) :
    flowShapeOk (bodyCalc env we wm st t rid state).flow :=
  labelingStep_flow_shape _ _ _ _ _ _ _ _ _ _ _

/-- C10: whenever a topic's run succeeds, no label was promoted this run, and
the topic's existing promoted label (if any) does not carry exactly three
words, the snapshot is still upserted and its `label_status` field is the
view's status: `candidate` exactly when a fresh label was inserted this run
and left unpromoted, and `stale` otherwise — including for a topic that has
never had any label at all. -/
theorem snapshot_label_status_spec (env : Env) (we : ℤ) (wm : ℚ) (st : Store)
    (t : Topic) (rid : Nat) (st' : Store) (res : TopicResult)
    (hok : topicBody env we wm st t rid = .ok (st', res))
    (hpe : ∀ pe, queryLatestPromoted st.labels t.id = some pe →
      ∀ ws, pe.words = some ws → ws.length ≠ 3)
    (hnp : res.label_status ≠ some .promoted) :
    ∃ row : Snapshot,
      st'.snapshots = upsertSnapshot st.snapshots t.id row ∧
      lookupSnapshot st'.snapshots t.id = some row ∧
      res.label_status = some row.label_status ∧
      row.label_status = (if res.didLabel = some true then .candidate else .stale) := by
  cases hsc : env.stateCalc t.id with
  | error m => simp [topicBody, hsc] at hok
  | ok rows =>
    cases hh : rows.head? with
    | none => simp [topicBody, hsc, hh] at hok
    | some state =>
      simp only [topicBody, hsc, hh, Except.ok.injEq, Prod.mk.injEq] at hok
      obtain ⟨hst, hres⟩ := hok
      subst hst
      subst hres
      have hview := bodyCalc_view_eq env we wm st t rid state
      have hshape := bodyCalc_flow_shape env we wm st t rid state
      rcases hshape with ⟨h1, h2, h3⟩ | ⟨h1, h2, h3⟩ | ⟨h1, h2, h3⟩
      · -- nothing inserted: status stale
        have hviewbase : (bodyCalc env we wm st t rid state).view.label_status =
            .stale := by
          rw [hview, applyFallback_of_no_three _ _ (by simp [h3]) hpe, h1]
        refine ⟨(bodyCalc env we wm st t rid state).snapRow,
          bodyCalc_store_snapshots env we wm st t rid state, ?_, ?_, ?_⟩
        · rw [bodyCalc_store_snapshots env we wm st t rid state]
          exact lookupSnapshot_upsert_self _ _ _
        · rw [bodyCalc_result_label_status, bodyCalc_snapRow_label_status]
        · rw [bodyCalc_snapRow_label_status, hviewbase,
            bodyCalc_result_didLabel, h2]
          simp
      · -- promoted this run: excluded by the hypothesis
        exfalso
        apply hnp
        rw [bodyCalc_result_label_status, hview, applyFallback_of_isSome _ _ (by simp [h3]), h1]
      · -- fresh candidate left unpromoted: status candidate
        have hviewbase : (bodyCalc env we wm st t rid state).view.label_status =
            .candidate := by
          rw [hview, applyFallback_of_no_three _ _ (by simp [h3]) hpe, h1]
        refine ⟨(bodyCalc env we wm st t rid state).snapRow,
          bodyCalc_store_snapshots env we wm st t rid state, ?_, ?_, ?_⟩
        · rw [bodyCalc_store_snapshots env we wm st t rid state]
          exact lookupSnapshot_upsert_self _ _ _
        · rw [bodyCalc_result_label_status, bodyCalc_snapRow_label_status]
        · rw [bodyCalc_snapRow_label_status, hviewbase,
            bodyCalc_result_didLabel, h2]
          simp

/-- The C10 witness environment: state calc returns a zero-volume window, so
no gate fires. -/
def c10Env : Env :=
  { nowMs := 0
    backfill := .ok ()
    topicsLoad := .ok []
    stateCalc := fun _ =>
      .ok [{ volume := 0, diversity := 0, top_sources := [], top_items := [],
             input_hash := "sh" }]
    candidates := fun _ => .ok []
    ai := fun _ _ => .error "unavailable" }

/-- The C10 witness topic: never labeled, default cadence. -/
def c10Topic : Topic :=
  { id := "t1", name := [], slug := "t1", orb_color := none,
    cadence_minutes := none, is_enabled := true, uses_sentiment_color := none }

/-- C10 witness: a topic with no snapshot and no label at all still gets its
snapshot upserted, with label status `stale`. -/
theorem snapshot_label_status_spec_witness :
    ∃ (st' : Store) (res : TopicResult) (row : Snapshot),
      topicBody c10Env 0 60 emptyStore c10Topic 0 = .ok (st', res) ∧
      st'.snapshots = upsertSnapshot emptyStore.snapshots "t1" row ∧
      lookupSnapshot st'.snapshots "t1" = some row ∧
      row.label_status = .stale := by
  have hval1 : (topicBody c10Env 0 60 emptyStore c10Topic 0).toOption.map
      (fun p => p.2.label_status) = some (some .stale) := by
    simp +decide [topicBody, bodyCalc, c10Env, c10Topic, emptyStore,
      queryPrevOrbState, labelsDescFor, sortNewestFirst, queryLatestPromoted,
      labelingStep, firstLabelGate, regenGate, timeGate, changeGate, minVolGate,
      velocityRaw, velocityPerHour, clampQ, lookupSnapshot, applyFallback,
      displayColorOf, upsertOrbState, upsertSnapshot, finishRunOk,
      VELOCITY_UI_CAP]
  have hval2 : (topicBody c10Env 0 60 emptyStore c10Topic 0).toOption.map
      (fun p => p.2.didLabel) = some (some false) := by
    simp +decide [topicBody, bodyCalc, c10Env, c10Topic, emptyStore,
      queryPrevOrbState, labelsDescFor, sortNewestFirst, queryLatestPromoted,
      labelingStep, firstLabelGate, regenGate, timeGate, changeGate, minVolGate,
      velocityRaw, velocityPerHour, clampQ, lookupSnapshot, applyFallback,
      displayColorOf, upsertOrbState, upsertSnapshot, finishRunOk,
      VELOCITY_UI_CAP]
  cases hok : topicBody c10Env 0 60 emptyStore c10Topic 0 with
  | error m => rw [hok] at hval1; simp [Except.toOption] at hval1
  | ok pr =>
    obtain ⟨st', res⟩ := pr
    rw [hok] at hval1 hval2
    simp [Except.toOption] at hval1 hval2
    have hls : res.label_status = some .stale := hval1
    have hdl : res.didLabel = some false := hval2
    obtain ⟨row, hrow1, hrow2, hrow3, hrow4⟩ :=
      snapshot_label_status_spec c10Env 0 60 emptyStore c10Topic 0 st' res hok
        (by intro pe hpe0; simp [queryLatestPromoted, emptyStore, sortNewestFirst] at hpe0)
        (by rw [hls]; simp)
    refine ⟨st', res, row, rfl, hrow1, hrow2, ?_⟩
    rw [hrow4, hdl]
    simp

/-- Well-formed store: every run row's id is below the id counter. -/
def runsWF (st : Store) : Prop := ∀ r ∈ st.runs, r.rid < st.nextRunId

/-- A run row with a different id survives a keyed run update unchanged. -/
theorem mem_runsMap_of_ne {runs : List Run} {rid : Nat} {r : Run}
    (g : Run → Run) (hr : r ∈ runs) (hne : r.rid ≠ rid) :
    r ∈ runs.map (fun x => if x.rid = rid then g x else x) :=
  List.mem_map.mpr ⟨r, hr, by rw [if_neg hne]⟩

/-- A keyed run update that preserves ids maps rows onto existing ids. -/
theorem runsMap_rid_mem {runs : List Run} {rid : Nat} {r' : Run}
    (g : Run → Run) (hg : ∀ x, (g x).rid = x.rid)
    (h : r' ∈ runs.map (fun x => if x.rid = rid then g x else x)) :
    ∃ x ∈ runs, r'.rid = x.rid := by
  obtain ⟨x, hx, hfx⟩ := List.mem_map.mp h
  refine ⟨x, hx, ?_⟩
  by_cases hxr : x.rid = rid
  · rw [if_pos hxr] at hfx
    rw [← hfx, hg]
  · rw [if_neg hxr] at hfx
    rw [← hfx]

/-- The structural effects of a successful topic body: the topic's result is
marked ok, the snapshots are the topic's upsert, the runs are the `ok` run
close-out, and the run id counter is untouched. -/
theorem topicBody_ok_parts (env : Env) (we : ℤ) (wm : ℚ) (st : Store)
    (t : Topic) (rid : Nat) (st' : Store) (res : TopicResult)
    (hok : topicBody env we wm st t rid = .ok (st', res)) :
    res.topic_id = t.id ∧ res.ok = true ∧
    (∃ row, st'.snapshots = upsertSnapshot st.snapshots t.id row) ∧
    (∃ oh tok, st'.runs = finishRunOk st.runs rid oh tok) ∧
    st'.nextRunId = st.nextRunId := by
  cases hsc : env.stateCalc t.id with
  | error m => simp [topicBody, hsc] at hok
  | ok rows =>
    cases hh : rows.head? with
    | none => simp [topicBody, hsc, hh] at hok
    | some state =>
      simp only [topicBody, hsc, hh, Except.ok.injEq, Prod.mk.injEq] at hok
      obtain ⟨hst, hres⟩ := hok
      subst hst
      subst hres
      exact ⟨rfl, rfl, ⟨_, rfl⟩, ⟨_, _, rfl⟩, rfl⟩

/-- Every per-topic result entry names its topic. -/
theorem processTopic_topic_id (env : Env) (we : ℤ) (wm : ℚ) (st : Store)
    (t : Topic) : (processTopic env we wm st t).2.topic_id = t.id := by
  unfold processTopic
  dsimp only
  cases hok : topicBody env we wm (insertRun st t.id we wm) t st.nextRunId with
  | error m => rfl
  | ok pr =>
    obtain ⟨st2, res2⟩ := pr
    exact (topicBody_ok_parts env we wm (insertRun st t.id we wm) t
      st.nextRunId st2 res2 hok).1

/-- Processing one topic never touches another topic's snapshot. -/
theorem processTopic_snapshots_ne (env : Env) (we : ℤ) (wm : ℚ) (st : Store)
    (t : Topic) (tid : String) (hne : tid ≠ t.id) :
    lookupSnapshot (processTopic env we wm st t).1.snapshots tid =
      lookupSnapshot st.snapshots tid := by
  unfold processTopic
  dsimp only
  cases hok : topicBody env we wm (insertRun st t.id we wm) t st.nextRunId with
  | error m => rfl
  | ok pr =>
    obtain ⟨st2, res2⟩ := pr
    obtain ⟨_, _, ⟨row, hsnap⟩, _, _⟩ := topicBody_ok_parts env we wm
      (insertRun st t.id we wm) t st.nextRunId st2 res2 hok
    dsimp only
    rw [hsnap]
    exact lookupSnapshot_upsert_ne _ _ _ _ hne

/-- Processing one topic keeps the store's runs well formed and preserves
every existing run row unchanged. -/
theorem processTopic_runs (env : Env) (we : ℤ) (wm : ℚ) (st : Store)
    (t : Topic) (hwf : runsWF st) :
    runsWF (processTopic env we wm st t).1 ∧
    (∀ r ∈ st.runs, r ∈ (processTopic env we wm st t).1.runs) := by
  unfold processTopic
  dsimp only
  cases hok : topicBody env we wm (insertRun st t.id we wm) t st.nextRunId with
  | error m =>
    dsimp only
    constructor
    · intro r' hr'
      obtain ⟨x, hx, hrid⟩ := runsMap_rid_mem
        (fun r => { r with status := RunStatus.error, error_message := some m })
        (fun _ => rfl) hr'
      show r'.rid < st.nextRunId + 1
      rw [hrid]
      rcases List.mem_append.mp hx with hx | hx
      · have := hwf x hx
        omega
      · rw [List.mem_singleton.mp hx]
        dsimp only
        omega
    · intro r hr
      apply mem_runsMap_of_ne
      · exact List.mem_append_left _ hr
      · exact Nat.ne_of_lt (hwf r hr)
  | ok pr =>
    obtain ⟨st2, res2⟩ := pr
    obtain ⟨_, _, _, ⟨oh, tok, hruns⟩, hnid⟩ := topicBody_ok_parts env we wm
      (insertRun st t.id we wm) t st.nextRunId st2 res2 hok
    dsimp only
    constructor
    · intro r' hr'
      rw [hruns] at hr'
      obtain ⟨x, hx, hrid⟩ := runsMap_rid_mem
        (fun r => { r with status := RunStatus.ok, output_hash := oh,
                           token_estimate := tok })
        (fun _ => rfl) hr'
      show r'.rid < st2.nextRunId
      rw [hnid]
      show r'.rid < st.nextRunId + 1
      rw [hrid]
      rcases List.mem_append.mp hx with hx | hx
      · have := hwf x hx
        omega
      · rw [List.mem_singleton.mp hx]
        dsimp only
        omega
    · intro r hr
      rw [hruns]
      apply mem_runsMap_of_ne
      · exact List.mem_append_left _ hr
      · exact Nat.ne_of_lt (hwf r hr)

/-- A failing state calc short-circuits the topic: the run is closed as
`error` with the message and the result is the failure entry. -/
theorem processTopic_stateCalc_error (env : Env) (we : ℤ) (wm : ℚ) (st : Store)
    (t : Topic) (m : String) (hfail : env.stateCalc t.id = .error m) :
    processTopic env we wm st t =
      (closeRunError (insertRun st t.id we wm) st.nextRunId m,
        { topic_id := t.id, ok := false, error := some m }) := by
  simp [processTopic, topicBody, hfail]

/-- The `error`-closed run row of a failed topic is present in the store. -/
theorem closeRunError_insertRun_mem (st : Store) (tid : String) (we : ℤ)
    (wm : ℚ) (m : String) :
    ({ rid := st.nextRunId, topic_id := tid, status := .error,
       window_end := we, window_minutes := wm, output_hash := none,
       token_estimate := none, error_message := some m } : Run) ∈
      (closeRunError (insertRun st tid we wm) st.nextRunId m).runs := by
  refine List.mem_map.mpr
    ⟨{ rid := st.nextRunId, topic_id := tid, status := .started,
       window_end := we, window_minutes := wm, output_hash := none,
       token_estimate := none, error_message := none },
     List.mem_append_right _ (List.mem_singleton_self _), ?_⟩
  simp

/-- The batch's result entries name the topics in order. -/
theorem runBatch_results_map (env : Env) (we : ℤ) (wm : ℚ) :
    ∀ (ts : List Topic) (st : Store),
      ((runBatch env we wm st ts).2).map (fun r => r.topic_id) =
        ts.map (fun x => x.id) := by
  intro ts
  induction ts with
  | nil => intro st; rfl
  | cons t rest ih =>
    intro st
    simp only [runBatch, List.map_cons]
    rw [processTopic_topic_id, ih]

/-- A batch over topics with other ids leaves a topic's snapshot unchanged. -/
theorem runBatch_snapshots_ne (env : Env) (we : ℤ) (wm : ℚ) (tid : String) :
    ∀ (ts : List Topic) (st : Store), (∀ x ∈ ts, x.id ≠ tid) →
      lookupSnapshot (runBatch env we wm st ts).1.snapshots tid =
        lookupSnapshot st.snapshots tid := by
  intro ts
  induction ts with
  | nil => intro st _; rfl
  | cons t rest ih =>
    intro st hne
    simp only [runBatch]
    rw [ih (processTopic env we wm st t).1
      (fun x hx => hne x (List.mem_cons_of_mem _ hx))]
    exact processTopic_snapshots_ne env we wm st t tid
      (fun h => hne t (List.mem_cons_self _ _) h.symm)

/-- A batch keeps the runs well formed and preserves existing run rows. -/
theorem runBatch_runs (env : Env) (we : ℤ) (wm : ℚ) :
    ∀ (ts : List Topic) (st : Store), runsWF st →
      runsWF (runBatch env we wm st ts).1 ∧
      ∀ r ∈ st.runs, r ∈ (runBatch env we wm st ts).1.runs := by
  intro ts
  induction ts with
  | nil => intro st hwf; exact ⟨hwf, fun r hr => hr⟩
  | cons t rest ih =>
    intro st hwf
    have hp := processTopic_runs env we wm st t hwf
    have hi := ih (processTopic env we wm st t).1 hp.1
    simp only [runBatch]
    exact ⟨hi.1, fun r hr => hi.2 r (hp.2 r hr)⟩

/-- The batch over an appended topic list is the batch over the first part
followed by the batch over the second, results concatenated. -/
theorem runBatch_append (env : Env) (we : ℤ) (wm : ℚ) :
    ∀ (l1 l2 : List Topic) (st : Store),
      runBatch env we wm st (l1 ++ l2) =
        ((runBatch env we wm (runBatch env we wm st l1).1 l2).1,
          (runBatch env we wm st l1).2 ++
            (runBatch env we wm (runBatch env we wm st l1).1 l2).2) := by
  intro l1
  induction l1 with
  | nil => intro l2 st; simp [runBatch]
  | cons t rest ih =>
    intro l2 st
    rw [List.cons_append]
    simp only [runBatch]
    rw [ih]
    rfl

/-- C3: a state-calc exception for one topic is caught at the topic boundary:
the batch response still contains one entry per topic, in topic order; the
failed topic's entry is marked not ok and carries the error message; the
failed topic's prior snapshot is byte-for-byte unchanged; and the failed
topic's run row is closed with status `error` and the message. -/
theorem topic_failure_isolated (env : Env) (req : Option JSNum) (st0 : Store)
    (l1 l2 : List Topic) (t : Topic) (m : String)
    (hback : env.backfill = .ok ())
    (hload : env.topicsLoad = .ok (l1 ++ t :: l2))
    (hfail : env.stateCalc t.id = .error m)
    (hnodup : ((l1 ++ t :: l2).map (fun x => x.id)).Nodup)
    (hwf : runsWF st0) :
    (recomputeOrbs env req st0).2.results.length = (l1 ++ t :: l2).length ∧
    (recomputeOrbs env req st0).2.results.map (fun r => r.topic_id) =
      (l1 ++ t :: l2).map (fun x => x.id) ∧
    (recomputeOrbs env req st0).2.results[l1.length]? =
      some { topic_id := t.id, ok := false, error := some m } ∧
    lookupSnapshot (recomputeOrbs env req st0).1.snapshots t.id =
      lookupSnapshot st0.snapshots t.id ∧
    ∃ r ∈ (recomputeOrbs env req st0).1.runs,
      r.topic_id = t.id ∧ r.status = .error ∧ r.error_message = some m := by
  have hl12 : ∀ x ∈ l1, x.id ≠ t.id := by
    intro x hx he
    rw [List.map_append, List.map_cons] at hnodup
    obtain ⟨hA, hB, hdisj⟩ := List.nodup_append.mp hnodup
    exact hdisj (he ▸ List.mem_map_of_mem _ hx) (List.mem_cons_self _ _)
  have hl22 : ∀ x ∈ l2, x.id ≠ t.id := by
    intro x hx he
    rw [List.map_append, List.map_cons] at hnodup
    obtain ⟨hA, hB, hdisj⟩ := List.nodup_append.mp hnodup
    exact (List.nodup_cons.mp hB).1 (he ▸ List.mem_map_of_mem _ hx)
  have hst_eq : (recomputeOrbs env req st0).1 =
      (runBatch env (alignedWindowEndMs env.nowMs) (requestWindowMinutes req)
        st0 (l1 ++ t :: l2)).1 := by
    simp [recomputeOrbs, hback, hload]
  have hres_eq : (recomputeOrbs env req st0).2.results =
      (runBatch env (alignedWindowEndMs env.nowMs) (requestWindowMinutes req)
        st0 (l1 ++ t :: l2)).2 := by
    simp [recomputeOrbs, hback, hload]
  set we := alignedWindowEndMs env.nowMs with hwe
  set wm := requestWindowMinutes req with hwm
  have happ := runBatch_append env we wm l1 (t :: l2) st0
  set s1 := (runBatch env we wm st0 l1).1 with hs1
  have hmap_all := runBatch_results_map env we wm (l1 ++ t :: l2) st0
  have hr1len : (runBatch env we wm st0 l1).2.length = l1.length := by
    have h := runBatch_results_map env we wm l1 st0
    have := congrArg List.length h
    simpa using this
  have hcons : runBatch env we wm s1 (t :: l2) =
      ((runBatch env we wm (processTopic env we wm s1 t).1 l2).1,
        (processTopic env we wm s1 t).2 ::
          (runBatch env we wm (processTopic env we wm s1 t).1 l2).2) := by
    simp only [runBatch]
  have hPT := processTopic_stateCalc_error env we wm s1 t m hfail
  have hwf1 := (runBatch_runs env we wm l1 st0 hwf).1
  refine ⟨?_, ?_, ?_, ?_, ?_⟩
  · rw [hres_eq]
    have := congrArg List.length hmap_all
    simpa using this
  · rw [hres_eq]
    exact hmap_all
  · rw [hres_eq, happ, hcons, hPT]
    rw [List.getElem?_append_right (by rw [hr1len])]
    rw [hr1len]
    simp
  · rw [hst_eq, happ]
    dsimp only
    rw [hcons]
    dsimp only
    rw [runBatch_snapshots_ne env we wm t.id l2 _ hl22, hPT]
    have hclose : (closeRunError (insertRun s1 t.id we wm) s1.nextRunId
        m).snapshots = s1.snapshots := rfl
    rw [hclose]
    exact runBatch_snapshots_ne env we wm t.id l1 st0 hl12
  · rw [hst_eq, happ]
    dsimp only
    rw [hcons]
    dsimp only
    have herr := closeRunError_insertRun_mem s1 t.id we wm m
    have hwf2 : runsWF (processTopic env we wm s1 t).1 :=
      (processTopic_runs env we wm s1 t hwf1).1
    rw [hPT] at hwf2
    have hpres := (runBatch_runs env we wm l2
      (closeRunError (insertRun s1 t.id we wm) s1.nextRunId m) hwf2).2
    rw [hPT]
    exact ⟨_, hpres _ herr, rfl, rfl, rfl⟩

/-- First topic of the C3 witness batch; its state calc succeeds. -/
def c3TopicA : Topic :=
  { id := "tA", name := [], slug := "ta", orb_color := none,
    cadence_minutes := none, is_enabled := true, uses_sentiment_color := none }

/-- Second topic of the C3 witness batch; its state calc raises. -/
def c3TopicB : Topic :=
  { id := "tB", name := [], slug := "tb", orb_color := none,
    cadence_minutes := none, is_enabled := true, uses_sentiment_color := none }

/-- The C3 witness environment: the aggregate fetch raises for topic `tB`
only. -/
def c3Env : Env :=
  { nowMs := 0
    backfill := .ok ()
    topicsLoad := .ok [c3TopicA, c3TopicB]
    stateCalc := fun tid =>
      if tid = "tB" then .error "boom"
      else .ok [{ volume := 0, diversity := 0, top_sources := [],
                  top_items := [], input_hash := "sh" }]
    candidates := fun _ => .ok []
    ai := fun _ _ => .error "unavailable" }

/-- C3 witness: in the concrete two-topic batch where `tB`'s aggregate fetch
raises, the response has one entry per topic in order, `tB`'s entry is the
failure record, `tB`'s snapshot is untouched, and `tB`'s run is closed as
`error`. -/
theorem topic_failure_isolated_witness :
    (recomputeOrbs c3Env none emptyStore).2.results.length =
      ([c3TopicA] ++ c3TopicB :: []).length ∧
    (recomputeOrbs c3Env none emptyStore).2.results.map (fun r => r.topic_id) =
      ([c3TopicA] ++ c3TopicB :: []).map (fun x => x.id) ∧
    (recomputeOrbs c3Env none emptyStore).2.results[[c3TopicA].length]? =
      some { topic_id := c3TopicB.id, ok := false, error := some "boom" } ∧
    lookupSnapshot (recomputeOrbs c3Env none emptyStore).1.snapshots c3TopicB.id =
      lookupSnapshot emptyStore.snapshots c3TopicB.id ∧
    ∃ r ∈ (recomputeOrbs c3Env none emptyStore).1.runs,
      r.topic_id = c3TopicB.id ∧ r.status = .error ∧ r.error_message = some "boom" :=
  topic_failure_isolated c3Env none emptyStore [c3TopicA] [] c3TopicB "boom"
    rfl rfl (by simp [c3Env, c3TopicB]) (by decide)
    (by intro r hr; simp [emptyStore] at hr)

/-- C2 witness: on the concrete two-row instance the candidate row ends up
promoted and the previously promoted row ends up stale. -/
theorem steady_promotion_spec_witness :
    ({ witnessCandidateLabel with status := .promoted } : Label).status = .promoted ∧
    ({ witnessPromotedLabel with status := .stale } : Label).status = .stale := by
  have h := steady_promotion_spec [witnessPromotedLabel] witnessCandidateLabel
    witnessPromotedLabel rfl rfl (by decide) (by decide)
  obtain ⟨h1, h2, _⟩ := h.1 ⟨"H1".toList, rfl, rfl⟩
  constructor
  · exact h1 { witnessCandidateLabel with status := .promoted } (by decide) rfl
  · exact h2 { witnessPromotedLabel with status := .stale } (by decide) rfl

end Orbs
